import Mathlib

/-!
Verification of the QuickJS C++ wrapper (`QuickJSWrapper.h`).

The wrapper sits at a foreign-function boundary: it owns no interpreter
internals and drives the engine only through the `quickjs.h` C API
(`JS_Eval`, `JS_Call`, `JS_ToCString`, `JS_GetException`, ...).  The engine
itself (quickjs.c) is part of the repository but not among the files under
study here, so it is modelled from the specification: an abstract interface
`Interp` bundling the engine primitives the wrapper calls, plus a small
concrete instance covering the fragment of evaluation the testable
properties exercise (global identifier reads, integer literals, binary +).

Host-side C++ control flow is embedded directly:
- a method that may throw `JSException(msg)` returns `Except String α`;
- the mutable `::JSContext` state (global bindings, the pending exception,
  the single per-context opaque pointer) is passed explicitly as `Ctx`;
- a host closure that may throw a `std::exception` with message `m` is a
  Lean function returning `Except.error m`.
-/

namespace QuickJS

/-- An IEEE-754 double, kept as an opaque 64-bit pattern: the wrapper never
computes with doubles, it only moves them across the boundary. -/
structure JSFloat where
  bits : Nat
deriving DecidableEq

/-- Which of the three C trampoline lambdas a `JS_NewCFunction` value wraps:
the `registerFunction` wrapper, the `registerSimpleFunction` wrapper, or the
`setConsoleLog` wrapper.  The lambdas capture nothing, so two registrations
of the same kind install literally the same C function. -/
inductive TrampKind where
  | strTramp
  | simpleTramp
  | logTramp
deriving DecidableEq

/-- A QuickJS script value as seen through the C API, restricted to the
shapes the wrapper creates or inspects.  `symbolV` stands for a Symbol,
whose implicit string conversion throws, so `JS_ToCString` yields no string
for it.  `ubVal` marks the outcome of reinterpreting the per-context opaque
pointer at a type other than the one stored — behavior the C++ leaves
undefined, to which the model assigns no meaning.  `exception` is the
`JS_EXCEPTION` sentinel tag. -/
inductive JSVal where
  | undef
  | nullV
  | boolV (b : Bool)
  | intV (n : Int)
  | floatV (f : JSFloat)
  | strV (s : String)
  | symbolV (id : Nat)
  | errObj (ename emsg : String)
  | nativeFn (k : TrampKind)
  | jsFunc (id : Nat)
  | objRef (id : Nat)
  | globalObj
  | ubVal
  | exception
deriving DecidableEq

/-- Modelled from the spec: `JS_IsException` (quickjs.c is not under
study) — the test for the exception sentinel tag. -/
def JSVal.isException : JSVal → Bool
  | JSVal.exception => true
  | _ => false

/-- Modelled from the spec: `JS_IsFunction` (quickjs.c is not under study):
true exactly for invocable values — native C functions and script
functions. -/
def JSVal.isFunction : JSVal → Bool
  | JSVal.nativeFn _ => true
  | JSVal.jsFunc _ => true
  | _ => false

/-- The source member `JSCFunctionString`: a host closure taking the converted argument
strings; `Except.error m` models it throwing a `std::exception` whose
`what()` is `m`. -/
abbrev JSCFunctionString := List String → Except String String

/-- The source member `JSCFunctionSimple`: the zero-argument host closure. -/
abbrev JSCFunctionSimple := Unit → Except String String

/-- The source member `ConsoleLogCallback`: the host logging callback; its observable effect
is modelled as the list of lines the host emits for a given message. -/
abbrev ConsoleLogCallback := String → List String

/-- What the single per-context opaque pointer (`JS_SetContextOpaque` /
`JS_GetContextOpaque`) holds, tagged by the type it was stored at:
a heap-allocated `JSCFunctionString` (stored by `registerFunction`), a
`FuncWrapper` (what `registerSimpleFunction` allocates), or a
`CallbackWrapper` (stored by `setConsoleLog`). -/
inductive OpaqueData where
  | strFn (f : JSCFunctionString)
  | simpleWrapper (f : JSCFunctionSimple)
  | consoleWrapper (cb : ConsoleLogCallback)

/-- The mutable state of one `::JSContext` as the wrapper observes it:
the global object's bindings, the pending exception, and the single
per-context opaque pointer.  `consoleLogSlot` is the `log` property of the
`console` object created by `setConsoleLog`; only that one property is
ever touched, so the surrounding object is flattened into a slot. -/
structure Ctx where
  globals : List (String × JSVal)
  pendingExc : Option JSVal
  opaqueSlot : Option OpaqueData
  consoleLogSlot : JSVal

/-- Modelled from the spec: `JS_GetException` (quickjs.c is not under
study) — returns the pending exception and clears it (`JS_NULL` when none
is pending). -/
def getException (st : Ctx) : JSVal × Ctx :=
  match st.pendingExc with
  | some e => (e, { st with pendingExc := none })
  | none => (JSVal.nullV, st)

/-- Modelled from the spec: `JS_ThrowInternalError(ctx, "%s", msg)`
(quickjs.c is not under study) — records an InternalError carrying `msg`
as the pending exception and returns the `JS_EXCEPTION` sentinel. -/
def throwInternalError (st : Ctx) (msg : String) : JSVal × Ctx :=
  (JSVal.exception, { st with pendingExc := some (JSVal.errObj "InternalError" msg) })

/-- Modelled from the spec: `JS_SetPropertyStr` on the ordinary global
object installs the binding, overwriting any prior binding of that name. -/
def setProp (m : List (String × JSVal)) (k : String) (v : JSVal) : List (String × JSVal) :=
  match m with
  | [] => [(k, v)]
  | (k1, v1) :: rest => if k1 = k then (k, v) :: rest else (k1, v1) :: setProp rest k v

/-- Modelled from the spec: `JS_GetPropertyStr` on the ordinary global
object reads the named binding; an absent binding reads as `undefined`. -/
def getProp (m : List (String × JSVal)) (k : String) : JSVal :=
  match m.lookup k with
  | some v => v
  | none => JSVal.undef

/-- Modelled from the spec: the engine primitives the wrapper calls, for
engine code (quickjs.c) that is part of the repository but not among the
files under study.  `jsEval` is `JS_Eval` (source, label, state in; value —
possibly the exception sentinel — and state out); `jsCall` is `JS_Call`
(callee, receiver, argument values); `toCString` is `JS_ToCString`, the
engine's string coercion, `none` when the value has no string form;
`toInt32`, `toFloat64`, `toBool` are the numeric/boolean coercions, which
always yield a value of the target type. -/
structure Interp where
  jsEval : String → String → Ctx → JSVal × Ctx
  jsCall : JSVal → JSVal → List JSVal → Ctx → JSVal × Ctx
  toCString : Ctx → JSVal → Option String
  toInt32 : Ctx → JSVal → Int
  toFloat64 : Ctx → JSVal → JSFloat
  toBool : Ctx → JSVal → Bool

/-- The source member `JSContext::eval` (QuickJSWrapper.h lines 126-146): run `JS_Eval`; on
the exception tag fetch the pending exception, stringify it (defaulting to
"Unknown error") and throw `JSException`; otherwise stringify the
completion value (defaulting to ""). -/
def eval (I : Interp) (code filename : String) (st : Ctx) : Except String String × Ctx :=
  let p := I.jsEval code filename st
  if p.1.isException then
    let q := getException p.2
    (Except.error ((I.toCString q.2 q.1).getD "Unknown error"), q.2)
  else
    (Except.ok ((I.toCString p.2 p.1).getD ""), p.2)

/-- The source member `JSContext::evalAsInt` (lines 151-170): same execution, but the result
goes through `JS_ToInt32` (whose status the wrapper ignores) starting from
`int result = 0`. -/
def evalAsInt (I : Interp) (code filename : String) (st : Ctx) : Except String Int × Ctx :=
  let p := I.jsEval code filename st
  if p.1.isException then
    let q := getException p.2
    (Except.error ((I.toCString q.2 q.1).getD "Unknown error"), q.2)
  else
    (Except.ok (I.toInt32 p.2 p.1), p.2)

/-- The source member `JSContext::evalAsDouble` (lines 175-194): same execution, result via
`JS_ToFloat64`. -/
def evalAsDouble (I : Interp) (code filename : String) (st : Ctx) : Except String JSFloat × Ctx :=
  let p := I.jsEval code filename st
  if p.1.isException then
    let q := getException p.2
    (Except.error ((I.toCString q.2 q.1).getD "Unknown error"), q.2)
  else
    (Except.ok (I.toFloat64 p.2 p.1), p.2)

/-- The source member `JSContext::evalAsBool` (lines 199-217): same execution, result via
`JS_ToBool`. -/
def evalAsBool (I : Interp) (code filename : String) (st : Ctx) : Except String Bool × Ctx :=
  let p := I.jsEval code filename st
  if p.1.isException then
    let q := getException p.2
    (Except.error ((I.toCString q.2 q.1).getD "Unknown error"), q.2)
  else
    (Except.ok (I.toBool p.2 p.1), p.2)

/-- The source member `JSContext::setGlobal(name, const std::string&)` (lines 222-227):
`JS_NewString` then `JS_SetPropertyStr` on the global object.  The C++
overload set is split into one Lean definition per scalar type. -/
def setGlobalString (name value : String) (st : Ctx) : Ctx :=
  { st with globals := setProp st.globals name (JSVal.strV value) }

/-- The source member `JSContext::setGlobal(name, int)` (lines 229-234): `JS_NewInt32`. -/
def setGlobalInt (name : String) (value : Int) (st : Ctx) : Ctx :=
  { st with globals := setProp st.globals name (JSVal.intV value) }

/-- The source member `JSContext::setGlobal(name, double)` (lines 236-241): `JS_NewFloat64`. -/
def setGlobalDouble (name : String) (value : JSFloat) (st : Ctx) : Ctx :=
  { st with globals := setProp st.globals name (JSVal.floatV value) }

/-- The source member `JSContext::setGlobal(name, bool)` (lines 243-248): `JS_NewBool`. -/
def setGlobalBool (name : String) (value : Bool) (st : Ctx) : Ctx :=
  { st with globals := setProp st.globals name (JSVal.boolV value) }

/-- The source member `JSContext::getGlobalAsString` (lines 253-264): read the global and
stringify it, defaulting to "" when it has no string form. -/
def getGlobalAsString (I : Interp) (name : String) (st : Ctx) : String × Ctx :=
  let v := getProp st.globals name
  ((I.toCString st v).getD "", st)

/-- The source member `JSContext::callFunction` (lines 269-310): look the name up on the
global object; throw `JSException("Not a function: " + name)` when the
binding is not invocable; otherwise build one `JS_NewString` per argument
in order, `JS_Call` with the global object as receiver, and handle the
result or the exception exactly as `eval` does. -/
def callFunction (I : Interp) (funcName : String) (args : List String) (st : Ctx) :
    Except String String × Ctx :=
  let func := getProp st.globals funcName
  if !func.isFunction then
    (Except.error ("Not a function: " ++ funcName), st)
  else
    let js_args := args.map JSVal.strV
    let p := I.jsCall func JSVal.globalObj js_args st
    if p.1.isException then
      let q := getException p.2
      (Except.error ((I.toCString q.2 q.1).getD "Unknown error"), q.2)
    else
      (Except.ok ((I.toCString p.2 p.1).getD ""), p.2)

/-- The source member `JSContext::evalFile` (lines 317-335): `fopen`/`fread` the whole file —
throwing `JSException("Failed to open file: " + path)` when it cannot be
opened — then `eval(contents, path)`.  The file system is external to the
repository and passed as a map from path to contents (`none` = cannot be
opened). -/
def evalFile (I : Interp) (fs : String → Option String) (filepath : String) (st : Ctx) :
    Except String String × Ctx :=
  match fs filepath with
  | none => (Except.error ("Failed to open file: " ++ filepath), st)
  | some code => eval I code filepath st

/-- The argument-conversion loop of the `registerFunction` wrapper lambda
(lines 354-361): each argument goes through `JS_ToCString`; `if (str)` —
an argument with no string form is skipped, the rest keep their relative
order. -/
def convertArgs (toCStr : Ctx → JSVal → Option String) (st : Ctx) : List JSVal → List String
  | [] => []
  | a :: rest =>
    match toCStr st a with
    | some s => s :: convertArgs toCStr st rest
    | none => convertArgs toCStr st rest

/-- The `registerFunction` wrapper lambda (lines 346-370): recover the
closure from the per-context opaque pointer (`JS_EXCEPTION` when it is
null; reinterpreting a pointer stored at another type is undefined,
`ubVal`), convert the arguments, call the closure, and either return its
string as a script string or catch the `std::exception` and re-raise it
via `JS_ThrowInternalError`.  The third component is the host-observable
console output (none here). -/
def strTrampoline (toCStr : Ctx → JSVal → Option String) (argv : List JSVal) (st : Ctx) :
    JSVal × Ctx × List String :=
  match st.opaqueSlot with
  | none => (JSVal.exception, st, [])
  | some (OpaqueData.strFn f) =>
    match f (convertArgs toCStr st argv) with
    | Except.ok r => (JSVal.strV r, st, [])
    | Except.error m =>
      let q := throwInternalError st m
      (q.1, q.2, [])
  | some _ => (JSVal.ubVal, st, [])

/-- The `registerSimpleFunction` wrapper lambda (lines 394-406): recover a
`FuncWrapper` from the per-context opaque pointer (`JS_EXCEPTION` when
null, undefined on a pointer stored at another type), call the closure
with no arguments, same fault translation as `strTrampoline`.  `argc` and
`argv` are ignored by the C++ lambda and therefore not taken here. -/
def simpleTrampoline (st : Ctx) : JSVal × Ctx × List String :=
  match st.opaqueSlot with
  | none => (JSVal.exception, st, [])
  | some (OpaqueData.simpleWrapper f) =>
    match f () with
    | Except.ok r => (JSVal.strV r, st, [])
    | Except.error m =>
      let q := throwInternalError st m
      (q.1, q.2, [])
  | some _ => (JSVal.ubVal, st, [])

/-- The `setConsoleLog` wrapper lambda (lines 426-436): recover a
`CallbackWrapper` from the per-context opaque pointer; when it is present
and there is at least one argument with a string form, forward that string
to the host callback (third component: the lines the host emits); always
return `undefined` — except that reinterpreting a pointer stored at
another type is undefined. -/
def logTrampoline (toCStr : Ctx → JSVal → Option String) (argv : List JSVal) (st : Ctx) :
    JSVal × Ctx × List String :=
  match st.opaqueSlot with
  | none => (JSVal.undef, st, [])
  | some (OpaqueData.consoleWrapper cb) =>
    match argv with
    | [] => (JSVal.undef, st, [])
    | a :: _ =>
      match toCStr st a with
      | some s => (JSVal.undef, st, cb s)
      | none => (JSVal.undef, st, [])
  | some _ => (JSVal.ubVal, st, [])

/-- Dispatch of a script call that lands on one of the three installed C
trampolines.  The trampolines receive only the engine context (carrying
the shared opaque pointer) and the call arguments — no per-name state. -/
def invokeNative (toCStr : Ctx → JSVal → Option String) (k : TrampKind) (argv : List JSVal)
    (st : Ctx) : JSVal × Ctx × List String :=
  match k with
  | TrampKind.strTramp => strTrampoline toCStr argv st
  | TrampKind.simpleTramp => simpleTrampoline st
  | TrampKind.logTramp => logTrampoline toCStr argv st

/-- The source member `JSContext::registerFunction` (lines 342-379): heap-allocate a copy of
the closure (`new JSCFunctionString(...)`, never freed), install
`JS_NewCFunction(wrapper, name, 0)` as a global binding under `name`, and
store the closure pointer in the per-context opaque slot
(`JS_SetContextOpaque`), overwriting whatever the slot held. -/
def registerFunction (name : String) (func : JSCFunctionString) (st : Ctx) : Ctx :=
  { st with
    globals := setProp st.globals name (JSVal.nativeFn TrampKind.strTramp)
    opaqueSlot := some (OpaqueData.strFn func) }

/-- The source member `JSContext::registerSimpleFunction` (lines 386-412): heap-allocate a
`FuncWrapper` holding the closure (`wrapper_data`, which the function then
never uses: it is leaked and in particular never stored via
`JS_SetContextOpaque`), and install `JS_NewCFunction(wrapper, name, 0)` as
a global binding under `name`.  The opaque slot is left untouched. -/
def registerSimpleFunction (name : String) (func : JSCFunctionSimple) (st : Ctx) : Ctx :=
  { st with globals := setProp st.globals name (JSVal.nativeFn TrampKind.simpleTramp) }

/-- The source text `setConsoleLog` evaluates to create the `console`
object (lines 438-442; the raw literal's whitespace is not reproduced —
the text is only handed opaquely to the engine). -/
def consoleBootstrapSrc : String :=
  "var console = \x7b log: function() \x7b\x7d \x7d;"

/-- The source member `JSContext::setConsoleLog` (lines 419-452): heap-allocate a
`CallbackWrapper` holding the callback, `eval` the `console` bootstrap (a
thrown `JSException` from it propagates out), replace `console.log` with
`JS_NewCFunction(wrapper, "log", 1)`, and store the wrapper pointer in the
per-context opaque slot, overwriting whatever the slot held. -/
def setConsoleLog (I : Interp) (callback : ConsoleLogCallback) (st : Ctx) : Except String Ctx :=
  let p := eval I consoleBootstrapSrc "<eval>" st
  match p.1 with
  | Except.error m => Except.error m
  | Except.ok _ =>
    Except.ok { p.2 with
      consoleLogSlot := JSVal.nativeFn TrampKind.logTramp
      opaqueSlot := some (OpaqueData.consoleWrapper callback) }

/-! ## A concrete spec-modelled engine fragment

The claims that need a concrete engine (the round-trip property and the
witnesses) use the following instance of `Interp`.  It is modelled from
the specification, restricted to the fragment the spec's testable
properties exercise. -/

/-- Value of a list of decimal digits. -/
def digitsToNat (l : List Char) : Nat :=
  l.foldl (fun acc c => acc * 10 + (c.toNat - 48)) 0

/-- A decimal integer literal. -/
def parseIntLit (s : String) : Option Nat :=
  let l := s.toList
  if !l.isEmpty && l.all (fun c => c.isDigit) then some (digitsToNat l) else none

/-- Split source text at `+` (the fragment's only operator). -/
def splitPlusAux : List Char → List Char → List String
  | [], acc => [String.mk acc.reverse]
  | c :: cs, acc =>
    if c = '+' then String.mk acc.reverse :: splitPlusAux cs []
    else splitPlusAux cs (c :: acc)

/-- Split source text at `+`; a text without `+` stays whole. -/
def splitPlus (s : String) : List String :=
  splitPlusAux s.toList []

/-- Modelled from the spec: evaluation of one atom of the fragment — a
decimal integer literal, or a global identifier; per the spec, evaluating
an undefined identifier raises a reference-error. -/
def evalAtom (st : Ctx) (tok : String) : JSVal × Ctx :=
  match parseIntLit tok with
  | some n => (JSVal.intV (Int.ofNat n), st)
  | none =>
    match st.globals.lookup tok with
    | some v => (v, st)
    | none =>
      (JSVal.exception,
        { st with pendingExc := some (JSVal.errObj "ReferenceError" (tok ++ " is not defined")) })

/-- Modelled from the spec: the engine's binary `+` on the modelled value
shapes — numeric addition on numbers, concatenation when an operand is a
string; shapes outside the fragment give `undef`, which no claim relies
on. -/
def jsAdd : JSVal → JSVal → JSVal
  | JSVal.intV x, JSVal.intV y => JSVal.intV (x + y)
  | JSVal.strV s, JSVal.strV t => JSVal.strV (s ++ t)
  | JSVal.strV s, JSVal.intV n => JSVal.strV (s ++ toString n)
  | JSVal.intV n, JSVal.strV s => JSVal.strV (toString n ++ s)
  | _, _ => JSVal.undef

/-- Modelled from the spec: `JS_Eval` (quickjs.c is not among the files
under study), restricted to the fragment the spec's testable properties
exercise: one atom, or two atoms joined by `+`; anything else is a
syntax-error.  The label argument is used only for diagnostics and ignored
here. -/
def specJsEval (code _filename : String) (st : Ctx) : JSVal × Ctx :=
  match splitPlus code with
  | [t] => evalAtom st t
  | [t1, t2] =>
    let p := evalAtom st t1
    if p.1.isException then (JSVal.exception, p.2)
    else
      let q := evalAtom p.2 t2
      if q.1.isException then (JSVal.exception, q.2)
      else (jsAdd p.1 q.1, q.2)
  | _ =>
    (JSVal.exception,
      { st with pendingExc := some (JSVal.errObj "SyntaxError" "outside the modelled fragment") })

/-- Modelled from the spec: `JS_ToCString`, the engine's string coercion.
A Symbol's implicit string conversion throws, so it has no string form;
the float form is engine arithmetic and stays a parameter. -/
def specToCString (floatStr : JSFloat → String) (_st : Ctx) : JSVal → Option String
  | JSVal.undef => some "undefined"
  | JSVal.nullV => some "null"
  | JSVal.boolV b => some (if b then "true" else "false")
  | JSVal.intV n => some (toString n)
  | JSVal.floatV f => some (floatStr f)
  | JSVal.strV s => some s
  | JSVal.symbolV _ => none
  | JSVal.errObj en em => some (en ++ ": " ++ em)
  | JSVal.nativeFn _ => some "function"
  | JSVal.jsFunc _ => some "function"
  | JSVal.objRef _ => some "[object Object]"
  | JSVal.globalObj => some "[object Object]"
  | JSVal.ubVal => none
  | JSVal.exception => none

/-- Modelled from the spec: `JS_ToInt32` on the modelled shapes (non-numeric
shapes coerce through NaN to 0; numeric strings are outside the fragment). -/
def specToInt32 (_st : Ctx) : JSVal → Int
  | JSVal.intV n => (n + 2 ^ 31) % 2 ^ 32 - 2 ^ 31
  | JSVal.boolV b => if b then 1 else 0
  | _ => 0

/-- Modelled from the spec: `JS_ToBool` on the modelled shapes; float
truthiness is engine arithmetic and stays a parameter. -/
def specToBool (floatTruthy : JSFloat → Bool) (_st : Ctx) : JSVal → Bool
  | JSVal.undef => false
  | JSVal.nullV => false
  | JSVal.boolV b => b
  | JSVal.intV n => n != 0
  | JSVal.floatV f => floatTruthy f
  | JSVal.strV s => s.length != 0
  | JSVal.exception => false
  | _ => true

/-- Modelled from the spec: `JS_Call` restricted to the fragment — a call
that lands on an installed C trampoline dispatches it (dropping the
host-console output, which `Interp.jsCall` does not carry); anything else
is outside the fragment and raises. -/
def specJsCall (floatStr : JSFloat → String) (func _receiver : JSVal) (argv : List JSVal)
    (st : Ctx) : JSVal × Ctx :=
  match func with
  | JSVal.nativeFn k =>
    let r := invokeNative (specToCString floatStr) k argv st
    (r.1, r.2.1)
  | _ =>
    (JSVal.exception,
      { st with pendingExc := some (JSVal.errObj "TypeError" "outside the modelled fragment") })

/-- The spec-modelled engine, parametrized by the engine arithmetic the
fragment leaves open (float stringification, float-to-double reads, float
truthiness). -/
def mkSpecInterp (floatStr : JSFloat → String) (toF : Ctx → JSVal → JSFloat)
    (floatTruthy : JSFloat → Bool) : Interp where
  jsEval := specJsEval
  jsCall := specJsCall floatStr
  toCString := specToCString floatStr
  toInt32 := specToInt32
  toFloat64 := toF
  toBool := specToBool floatTruthy

/-- A fresh context in the modelled fragment (`JS_NewContext`; the engine's
built-in globals lie outside the fragment and are omitted). -/
def initCtx : Ctx where
  globals := []
  pendingExc := none
  opaqueSlot := none
  consoleLogSlot := JSVal.undef

/-- A fixed instantiation of the engine-arithmetic parameters, for concrete
evaluations. -/
def specInterp0 : Interp :=
  mkSpecInterp (fun _ => "0") (fun _ _ => JSFloat.mk 0) (fun _ => false)

/-- An engine whose evaluation completes with `undefined` and does not
touch the context — used to drive operations whose embedded source text
lies outside the modelled fragment. -/
def undefInterp : Interp where
  jsEval := fun _ _ st => (JSVal.undef, st)
  jsCall := fun _ _ _ st => (JSVal.undef, st)
  toCString := specToCString (fun _ => "0")
  toInt32 := specToInt32
  toFloat64 := fun _ _ => JSFloat.mk 0
  toBool := specToBool (fun _ => false)

/-! ## Helper lemmas -/

theorem isException_eq_false (v : JSVal) (h : v ≠ JSVal.exception) : v.isException = false := by
  cases v <;> first | rfl | exact absurd rfl h

theorem lookup_setProp (g : List (String × JSVal)) (k : String) (v : JSVal) :
    (setProp g k v).lookup k = some v := by
  induction g with
  | nil => simp [setProp, List.lookup]
  | cons p rest ih =>
    obtain ⟨k1, v1⟩ := p
    by_cases h : k1 = k
    · subst h
      simp [setProp, List.lookup]
    · simp only [setProp, if_neg h, List.lookup]
      have hbeq : (k == k1) = false := beq_eq_false_iff_ne.mpr (Ne.symm h)
      simp [hbeq, ih]

theorem lookup_setProp_ne (g : List (String × JSVal)) (k k2 : String) (v : JSVal)
    (h : k2 ≠ k) : (setProp g k v).lookup k2 = g.lookup k2 := by
  induction g with
  | nil => simp [setProp, List.lookup, beq_eq_false_iff_ne.mpr h]
  | cons p rest ih =>
    obtain ⟨k1, v1⟩ := p
    by_cases hk : k1 = k
    · subst hk
      simp [setProp, List.lookup, beq_eq_false_iff_ne.mpr h]
    · simp only [setProp, if_neg hk, List.lookup]
      cases hbeq : (k2 == k1) <;> simp [ih]

theorem convertArgs_congr (toCStr : Ctx → JSVal → Option String) (stA stB : Ctx)
    (h : ∀ v, toCStr stA v = toCStr stB v) (argv : List JSVal) :
    convertArgs toCStr stA argv = convertArgs toCStr stB argv := by
  induction argv with
  | nil => rfl
  | cons a rest ih => simp [convertArgs, h a, ih]

theorem convertArgs_eq_filterMap (toCStr : Ctx → JSVal → Option String) (st : Ctx)
    (argv : List JSVal) : convertArgs toCStr st argv = argv.filterMap (toCStr st) := by
  induction argv with
  | nil => rfl
  | cons a rest ih =>
    cases h : toCStr st a <;> simp [convertArgs, h, ih]

/-! ## Claims -/

/-- C1: for every engine behavior, source text and label, `eval` returns,
on success, the completion value converted to a string (empty when it has
no string form), and on failure throws `JSException(message)` where
`message` is the thrown exception's string form, or the literal
"Unknown error" when the thrown value has no string form. -/
theorem eval_result_spec (I : Interp) (code filename : String) (st : Ctx) :
    (∀ v st1, I.jsEval code filename st = (v, st1) → v ≠ JSVal.exception →
      eval I code filename st = (Except.ok ((I.toCString st1 v).getD ""), st1))
    ∧ (∀ st1, I.jsEval code filename st = (JSVal.exception, st1) →
      eval I code filename st =
        (Except.error
            ((I.toCString (getException st1).2 (getException st1).1).getD "Unknown error"),
          (getException st1).2)) := by
  constructor
  · intro v st1 h hne
    simp [eval, h, isException_eq_false v hne]
  · intro st1 h
    simp [eval, h, JSVal.isException]

/-- Witness for C1: a successful evaluation and a reference-error
evaluation, in the spec-modelled engine. -/
theorem eval_result_spec_witness :
    eval specInterp0 "1+2" "<eval>" initCtx = (Except.ok "3", initCtx)
    ∧ eval specInterp0 "y" "<eval>" initCtx
      = (Except.error "ReferenceError: y is not defined", initCtx) := by
  constructor
  · exact ((eval_result_spec specInterp0 "1+2" "<eval>" initCtx).1
      (JSVal.intV 3) initCtx (by rfl) (by decide)).trans (by rfl)
  · exact ((eval_result_spec specInterp0 "y" "<eval>" initCtx).2
      { initCtx with pendingExc := some (JSVal.errObj "ReferenceError" "y is not defined") }
      (by rfl)).trans (by rfl)

/-- C2: `callFunction` throws `JSException("Not a function: " + name)` when
the global binding under `name` is absent or not invocable, leaving the
context untouched (no call happens); otherwise it converts the arguments
to script strings in order, invokes with the global object as the call
receiver, and converts the result or propagates a thrown exception exactly
as `eval` does. -/
theorem callFunction_spec (I : Interp) (funcName : String) (args : List String) (st : Ctx) :
    ((getProp st.globals funcName).isFunction = false →
      callFunction I funcName args st = (Except.error ("Not a function: " ++ funcName), st))
    ∧ (∀ v st1, (getProp st.globals funcName).isFunction = true →
      I.jsCall (getProp st.globals funcName) JSVal.globalObj (args.map JSVal.strV) st
        = (v, st1) →
      (v ≠ JSVal.exception →
        callFunction I funcName args st = (Except.ok ((I.toCString st1 v).getD ""), st1))
      ∧ (v = JSVal.exception →
        callFunction I funcName args st =
          (Except.error
              ((I.toCString (getException st1).2 (getException st1).1).getD "Unknown error"),
            (getException st1).2))) := by
  constructor
  · intro hfn
    simp [callFunction, hfn]
  · intro v st1 hfn hcall
    constructor
    · intro hne
      simp [callFunction, hfn, hcall, isException_eq_false v hne]
    · intro hexc
      subst hexc
      simp [callFunction, hfn, hcall, JSVal.isException]

/-- Witness for C2: a call through a registered function succeeds, and the
spec's own example `callFunction("missing", [])` fails with the
not-callable error. -/
theorem callFunction_spec_witness :
    (let st := registerFunction "f"
        (fun args => Except.ok (args.foldl (fun a b => a ++ b) "")) initCtx
     callFunction specInterp0 "f" ["a", "b"] st = (Except.ok "ab", st))
    ∧ callFunction specInterp0 "missing" [] initCtx
      = (Except.error "Not a function: missing", initCtx) := by
  constructor
  · exact (((callFunction_spec specInterp0 "f" ["a", "b"]
      (registerFunction "f" (fun args => Except.ok (args.foldl (fun a b => a ++ b) "")) initCtx)).2
      (JSVal.strV "ab")
      (registerFunction "f" (fun args => Except.ok (args.foldl (fun a b => a ++ b) "")) initCtx)
      (by rfl) (by rfl)).1 (by decide)).trans (by rfl)
  · exact (callFunction_spec specInterp0 "missing" [] initCtx).1 (by rfl)

/-- C3: a host fault raised by a registered closure during a
script-initiated call is caught at the bridge boundary and re-raised as a
script-level exception carrying the fault's message: the trampoline
returns the exception sentinel to the interpreter with a pending
`InternalError` whose message is the fault's, so the calling script frame
sees the failure; by its very return type the trampoline hands nothing
back to the host frame that registered the closure.  Both the
`registerFunction` and the `registerSimpleFunction` wrapper lambdas
translate faults this way. -/
theorem hostFault_translated (toCStr : Ctx → JSVal → Option String)
    (f : JSCFunctionString) (g : JSCFunctionSimple) (argv : List JSVal)
    (st st2 : Ctx) (m m2 : String) :
    (st.opaqueSlot = some (OpaqueData.strFn f) →
      f (convertArgs toCStr st argv) = Except.error m →
      invokeNative toCStr TrampKind.strTramp argv st
        = (JSVal.exception,
            { st with pendingExc := some (JSVal.errObj "InternalError" m) }, []))
    ∧ (st2.opaqueSlot = some (OpaqueData.simpleWrapper g) →
      g () = Except.error m2 →
      invokeNative toCStr TrampKind.simpleTramp argv st2
        = (JSVal.exception,
            { st2 with pendingExc := some (JSVal.errObj "InternalError" m2) }, [])) := by
  constructor
  · intro h1 h2
    simp [invokeNative, strTrampoline, h1, h2, throwInternalError]
  · intro h1 h2
    simp [invokeNative, simpleTrampoline, h1, h2, throwInternalError]

/-- Witness for C3: concrete faulting closures behind both trampoline
kinds; the script side sees a pending `InternalError` with the fault's
message. -/
theorem hostFault_translated_witness :
    (invokeNative (specToCString (fun _ => "0")) TrampKind.strTramp [JSVal.strV "a"]
        { initCtx with opaqueSlot := some (OpaqueData.strFn (fun _ => Except.error "boom")) }
      = (JSVal.exception,
          { initCtx with
            opaqueSlot := some (OpaqueData.strFn (fun _ => Except.error "boom"))
            pendingExc := some (JSVal.errObj "InternalError" "boom") }, []))
    ∧ (invokeNative (specToCString (fun _ => "0")) TrampKind.simpleTramp []
        { initCtx with opaqueSlot := some (OpaqueData.simpleWrapper (fun _ => Except.error "ouch")) }
      = (JSVal.exception,
          { initCtx with
            opaqueSlot := some (OpaqueData.simpleWrapper (fun _ => Except.error "ouch"))
            pendingExc := some (JSVal.errObj "InternalError" "ouch") }, [])) := by
  constructor
  · exact (hostFault_translated (specToCString (fun _ => "0"))
      (fun _ => Except.error "boom") (fun _ => Except.error "ouch") [JSVal.strV "a"]
      { initCtx with opaqueSlot := some (OpaqueData.strFn (fun _ => Except.error "boom")) }
      initCtx "boom" "ouch").1 (by rfl) (by rfl)
  · exact (hostFault_translated (specToCString (fun _ => "0"))
      (fun _ => Except.error "boom") (fun _ => Except.error "ouch") []
      initCtx
      { initCtx with opaqueSlot := some (OpaqueData.simpleWrapper (fun _ => Except.error "ouch")) }
      "boom" "ouch").2 (by rfl) (by rfl)

/-- C4 (the code at the claim's failing input): after
`registerSimpleFunction("getVersion", ...)` on a fresh context, the global
is bound to the simple trampoline, but the per-context opaque slot is
still empty — the allocated `FuncWrapper` was never installed via
`JS_SetContextOpaque` — so a script call to `getVersion` returns
`JS_EXCEPTION` without the closure ever running, instead of the closure's
string. -/
theorem registerSimpleFunction_closure_unreachable :
    (let st := registerSimpleFunction "getVersion"
        (fun _ => Except.ok "Luna Launcher v1.0.0") initCtx
     st.globals.lookup "getVersion" = some (JSVal.nativeFn TrampKind.simpleTramp)
     ∧ st.opaqueSlot = none
     ∧ invokeNative (specToCString (fun _ => "0")) TrampKind.simpleTramp [] st
        = (JSVal.exception, st, [])) :=
  ⟨by rfl, by rfl, by rfl⟩

/-- C5 counterexample: two script arguments of which the first has no
string form (a Symbol): the closure observes a single argument, so the
bridge changed the argument count and positions — the claim predicts the
closure receives the `argc` = 2 best-effort strings and would yield
"2". -/
theorem strTramp_drops_unstringifiable_argument :
    (let f : JSCFunctionString := fun args => Except.ok (toString args.length)
     let st : Ctx := { initCtx with opaqueSlot := some (OpaqueData.strFn f) }
     invokeNative (specToCString (fun _ => "0")) TrampKind.strTramp
         [JSVal.symbolV 0, JSVal.strV "x"] st
       = (JSVal.strV "1", st, [])
     ∧ JSVal.strV "1" ≠ JSVal.strV "2") :=
  ⟨by rfl, by decide⟩

/-- C5 amended: when script code invokes a `registerFunction`-registered
closure, the bridge converts each argument with the engine's string
conversion, in order, silently dropping any argument that has no string
form (so the closure may receive fewer than `argc` arguments); a
conversion never fails the call; the closure is then invoked on that
sequence and its string result is returned as a script string (a host
fault being translated as in C3). -/
theorem strTramp_passes_convertible_args (toCStr : Ctx → JSVal → Option String)
    (f : JSCFunctionString) (argv : List JSVal) (st : Ctx) :
    st.opaqueSlot = some (OpaqueData.strFn f) →
    convertArgs toCStr st argv = argv.filterMap (toCStr st)
    ∧ invokeNative toCStr TrampKind.strTramp argv st
      = (match f (argv.filterMap (toCStr st)) with
         | Except.ok r => (JSVal.strV r, st, [])
         | Except.error m =>
           (JSVal.exception,
             { st with pendingExc := some (JSVal.errObj "InternalError" m) }, [])) := by
  intro hop
  refine ⟨convertArgs_eq_filterMap toCStr st argv, ?_⟩
  rw [← convertArgs_eq_filterMap]
  cases hf : f (convertArgs toCStr st argv) with
  | ok r => simp [invokeNative, strTrampoline, hop, hf]
  | error m => simp [invokeNative, strTrampoline, hop, hf, throwInternalError]

/-- Witness for C5 amended: the convertible arguments "a" and "b" reach
the closure in order, the Symbol between them is dropped. -/
theorem strTramp_passes_convertible_args_witness :
    invokeNative (specToCString (fun _ => "0")) TrampKind.strTramp
        [JSVal.strV "a", JSVal.symbolV 7, JSVal.strV "b"]
        { initCtx with
          opaqueSlot := some (OpaqueData.strFn
            (fun args => Except.ok (args.foldl (fun x y => x ++ y) ""))) }
      = (JSVal.strV "ab",
          { initCtx with
            opaqueSlot := some (OpaqueData.strFn
              (fun args => Except.ok (args.foldl (fun x y => x ++ y) ""))) }, []) := by
  exact ((strTramp_passes_convertible_args (specToCString (fun _ => "0"))
    (fun args => Except.ok (args.foldl (fun x y => x ++ y) ""))
    [JSVal.strV "a", JSVal.symbolV 7, JSVal.strV "b"]
    { initCtx with
      opaqueSlot := some (OpaqueData.strFn
        (fun args => Except.ok (args.foldl (fun x y => x ++ y) ""))) }
    (by rfl)).2).trans (by rfl)

/-- C6: the three typed variants perform the same execution as `eval` —
same engine invocation, identical failure with the identical message and
final state — but convert the completion value via the engine's
numeric/boolean coercion instead of stringification; on a completed
evaluation they always return the coercion's result, never a host-level
error. -/
theorem evalTyped_coercion_spec (I : Interp) (code filename : String) (st : Ctx) :
    (∀ v st1, I.jsEval code filename st = (v, st1) → v ≠ JSVal.exception →
      evalAsInt I code filename st = (Except.ok (I.toInt32 st1 v), st1)
      ∧ evalAsDouble I code filename st = (Except.ok (I.toFloat64 st1 v), st1)
      ∧ evalAsBool I code filename st = (Except.ok (I.toBool st1 v), st1))
    ∧ (∀ st1 m st2, I.jsEval code filename st = (JSVal.exception, st1) →
      eval I code filename st = (Except.error m, st2) →
      evalAsInt I code filename st = (Except.error m, st2)
      ∧ evalAsDouble I code filename st = (Except.error m, st2)
      ∧ evalAsBool I code filename st = (Except.error m, st2)) := by
  constructor
  · intro v st1 h hne
    refine ⟨?_, ?_, ?_⟩ <;>
      simp [evalAsInt, evalAsDouble, evalAsBool, h, isException_eq_false v hne]
  · intro st1 m st2 h heval
    have hv : eval I code filename st =
        (Except.error
            ((I.toCString (getException st1).2 (getException st1).1).getD "Unknown error"),
          (getException st1).2) := by
      simp [eval, h, JSVal.isException]
    rw [heval] at hv
    refine ⟨?_, ?_, ?_⟩ <;>
      simp [evalAsInt, evalAsDouble, evalAsBool, h, JSVal.isException, Prod.ext_iff] at hv ⊢ <;>
      exact ⟨hv.1.symm, hv.2.symm⟩

/-- Witness for C6: typed results of a successful evaluation, and the
shared failure of all three variants on a reference error. -/
theorem evalTyped_coercion_spec_witness :
    (evalAsInt specInterp0 "1+2" "<eval>" initCtx = (Except.ok 3, initCtx)
      ∧ evalAsBool specInterp0 "1+2" "<eval>" initCtx = (Except.ok true, initCtx))
    ∧ evalAsInt specInterp0 "y" "<eval>" initCtx
      = (Except.error "ReferenceError: y is not defined", initCtx) := by
  have hok := (evalTyped_coercion_spec specInterp0 "1+2" "<eval>" initCtx).1
    (JSVal.intV 3) initCtx (by rfl) (by decide)
  have herr := (evalTyped_coercion_spec specInterp0 "y" "<eval>" initCtx).2
    { initCtx with pendingExc := some (JSVal.errObj "ReferenceError" "y is not defined") }
    "ReferenceError: y is not defined" initCtx (by rfl) (by rfl)
  exact ⟨⟨hok.1.trans (by rfl), hok.2.2.trans (by rfl)⟩, herr.1⟩

/-- C7: `evalFile` throws `JSException("Failed to open file: " + path)`
when the file cannot be opened, evaluating nothing (the context is
untouched); when it can, `evalFile(path)` is exactly `eval(contents,
path)` on the file's entire contents, with the path as the source
label. -/
theorem evalFile_spec (I : Interp) (fs : String → Option String) (filepath : String) (st : Ctx) :
    (fs filepath = none →
      evalFile I fs filepath st = (Except.error ("Failed to open file: " ++ filepath), st))
    ∧ (∀ contents, fs filepath = some contents →
      evalFile I fs filepath st = eval I contents filepath st) := by
  constructor
  · intro h
    simp [evalFile, h]
  · intro contents h
    simp [evalFile, h]

/-- Witness for C7: a missing file fails with the file-open error; a
present file evaluates its contents under its path as label. -/
theorem evalFile_spec_witness :
    (evalFile specInterp0 (fun p => if p = "/a.js" then some "1+2" else none)
        "/nonexistent" initCtx
      = (Except.error "Failed to open file: /nonexistent", initCtx))
    ∧ (evalFile specInterp0 (fun p => if p = "/a.js" then some "1+2" else none)
        "/a.js" initCtx
      = (Except.ok "3", initCtx)) := by
  constructor
  · exact ((evalFile_spec specInterp0 (fun p => if p = "/a.js" then some "1+2" else none)
      "/nonexistent" initCtx).1 (by rfl)).trans (by rfl)
  · exact ((evalFile_spec specInterp0 (fun p => if p = "/a.js" then some "1+2" else none)
      "/a.js" initCtx).2 "1+2" (by rfl)).trans (by rfl)

/-- C8: a value installed by `setGlobal` is read back unchanged by a
subsequent evaluation of its name under the engine's own coercion, for
each supported scalar type and every engine arithmetic the fragment
leaves open (the double case returns the engine's string form of the very
bits that were stored); in particular after `setGlobal("x", 5)`,
`eval("x+1")` returns "6". -/
theorem setGlobal_eval_roundtrip (floatStr : JSFloat → String)
    (toF : Ctx → JSVal → JSFloat) (floatTruthy : JSFloat → Bool)
    (s : String) (n : Int) (d : JSFloat) (b : Bool) (st : Ctx) :
    (eval (mkSpecInterp floatStr toF floatTruthy) "x" "<eval>" (setGlobalString "x" s st)
      = (Except.ok s, setGlobalString "x" s st))
    ∧ (eval (mkSpecInterp floatStr toF floatTruthy) "x" "<eval>" (setGlobalInt "x" n st)
      = (Except.ok (toString n), setGlobalInt "x" n st))
    ∧ (eval (mkSpecInterp floatStr toF floatTruthy) "x" "<eval>" (setGlobalDouble "x" d st)
      = (Except.ok (floatStr d), setGlobalDouble "x" d st))
    ∧ (eval (mkSpecInterp floatStr toF floatTruthy) "x" "<eval>" (setGlobalBool "x" b st)
      = (Except.ok (if b then "true" else "false"), setGlobalBool "x" b st))
    ∧ (eval (mkSpecInterp floatStr toF floatTruthy) "x+1" "<eval>" (setGlobalInt "x" 5 st)
      = (Except.ok "6", setGlobalInt "x" 5 st)) := by
  have hsx : splitPlus "x" = ["x"] := rfl
  have hsx1 : splitPlus "x+1" = ["x", "1"] := rfl
  have hpx : parseIntLit "x" = none := rfl
  have hp1 : parseIntLit "1" = some 1 := rfl
  have h6 : toString (6 : Int) = "6" := rfl
  refine ⟨?_, ?_, ?_, ?_, ?_⟩
  · simp [eval, mkSpecInterp, specJsEval, hsx, evalAtom, hpx, setGlobalString,
      lookup_setProp, JSVal.isException, specToCString]
  · simp [eval, mkSpecInterp, specJsEval, hsx, evalAtom, hpx, setGlobalInt,
      lookup_setProp, JSVal.isException, specToCString]
  · simp [eval, mkSpecInterp, specJsEval, hsx, evalAtom, hpx, setGlobalDouble,
      lookup_setProp, JSVal.isException, specToCString]
  · simp [eval, mkSpecInterp, specJsEval, hsx, evalAtom, hpx, setGlobalBool,
      lookup_setProp, JSVal.isException, specToCString]
  · simp [eval, mkSpecInterp, specJsEval, hsx1, evalAtom, hpx, hp1, setGlobalInt,
      lookup_setProp, JSVal.isException, specToCString, jsAdd, h6]

/-- C9: repeated `registerFunction` under the same name replaces the prior
binding: the name is (still) bound to the argument-taking trampoline, a
script call through it runs the most recently registered closure, and
each of the two registration calls touched exactly the one binding —
every other global reads as before. -/
theorem registerFunction_last_wins (name : String) (f g : JSCFunctionString)
    (st : Ctx) (toCStr : Ctx → JSVal → Option String) (argv : List JSVal) :
    (∀ other, other ≠ name →
      (registerFunction name f st).globals.lookup other = st.globals.lookup other)
    ∧ ((registerFunction name g (registerFunction name f st)).globals.lookup name
        = some (JSVal.nativeFn TrampKind.strTramp))
    ∧ (∀ other, other ≠ name →
      (registerFunction name g (registerFunction name f st)).globals.lookup other
        = st.globals.lookup other)
    ∧ (invokeNative toCStr TrampKind.strTramp argv
          (registerFunction name g (registerFunction name f st))
        = (match g (convertArgs toCStr
              (registerFunction name g (registerFunction name f st)) argv) with
           | Except.ok r =>
             (JSVal.strV r, registerFunction name g (registerFunction name f st), [])
           | Except.error m =>
             (JSVal.exception,
               { registerFunction name g (registerFunction name f st) with
                 pendingExc := some (JSVal.errObj "InternalError" m) }, []))) := by
  refine ⟨?_, ?_, ?_, ?_⟩
  · intro other hne
    simp [registerFunction, lookup_setProp_ne _ _ _ _ hne]
  · simp [registerFunction, lookup_setProp]
  · intro other hne
    simp [registerFunction, lookup_setProp_ne _ _ _ _ hne]
  · have hop : (registerFunction name g (registerFunction name f st)).opaqueSlot
        = some (OpaqueData.strFn g) := rfl
    cases hg : g (convertArgs toCStr
        (registerFunction name g (registerFunction name f st)) argv) with
    | ok r => simp [invokeNative, strTrampoline, hop, hg]
    | error m => simp [invokeNative, strTrampoline, hop, hg, throwInternalError]

/-- Witness for C9: after registering "first" then "second" under `m`, a
script call to `m` yields "second", and the unrelated name `z` is
untouched. -/
theorem registerFunction_last_wins_witness :
    (registerFunction "m" (fun _ => Except.ok "second")
        (registerFunction "m" (fun _ => Except.ok "first") initCtx)).globals.lookup "m"
      = some (JSVal.nativeFn TrampKind.strTramp)
    ∧ (registerFunction "m" (fun _ => Except.ok "second")
        (registerFunction "m" (fun _ => Except.ok "first") initCtx)).globals.lookup "z"
      = none
    ∧ invokeNative (specToCString (fun _ => "0")) TrampKind.strTramp []
        (registerFunction "m" (fun _ => Except.ok "second")
          (registerFunction "m" (fun _ => Except.ok "first") initCtx))
      = (JSVal.strV "second",
          registerFunction "m" (fun _ => Except.ok "second")
            (registerFunction "m" (fun _ => Except.ok "first") initCtx), []) := by
  have h := registerFunction_last_wins "m" (fun _ => Except.ok "first")
    (fun _ => Except.ok "second") initCtx (specToCString (fun _ => "0")) []
  exact ⟨h.2.1, (h.2.2.1 "z" (by decide)).trans (by rfl), h.2.2.2.trans (by rfl)⟩

/-- C10: every installed trampoline recovers its host closure from the
context's single shared opaque pointer, never from per-name state:
`registerFunction` and `setConsoleLog` overwrite that pointer for the
whole context, `registerSimpleFunction` never writes it, a trampoline's
dispatch (result value and host-observable output) depends only on that
pointer (given the same argument conversions), and after a later
`registerFunction` under a different name, a script call to the
earlier-registered name runs the most recently stored closure; after a
later `setConsoleLog`, it reinterprets the stored `CallbackWrapper` at
the wrong type (undefined behavior) — in no case the closure registered
under the called name. -/
theorem trampolines_share_one_opaque_slot
    (name1 name2 : String) (f g : JSCFunctionString) (h0 : JSCFunctionSimple)
    (I : Interp) (cb : ConsoleLogCallback) (st : Ctx)
    (toCStr : Ctx → JSVal → Option String) (argv : List JSVal) :
    ((registerFunction name1 f st).opaqueSlot = some (OpaqueData.strFn f))
    ∧ ((registerSimpleFunction name1 h0 st).opaqueSlot = st.opaqueSlot)
    ∧ (∀ st1, setConsoleLog I cb st = Except.ok st1 →
        st1.opaqueSlot = some (OpaqueData.consoleWrapper cb))
    ∧ (∀ k stA stB, stA.opaqueSlot = stB.opaqueSlot →
        (∀ v, toCStr stA v = toCStr stB v) →
        (invokeNative toCStr k argv stA).1 = (invokeNative toCStr k argv stB).1
        ∧ (invokeNative toCStr k argv stA).2.2 = (invokeNative toCStr k argv stB).2.2)
    ∧ (name1 ≠ name2 →
        (registerFunction name2 g (registerFunction name1 f st)).globals.lookup name1
          = some (JSVal.nativeFn TrampKind.strTramp)
        ∧ invokeNative toCStr TrampKind.strTramp argv
            (registerFunction name2 g (registerFunction name1 f st))
          = (match g (convertArgs toCStr
                (registerFunction name2 g (registerFunction name1 f st)) argv) with
             | Except.ok r =>
               (JSVal.strV r, registerFunction name2 g (registerFunction name1 f st), [])
             | Except.error m =>
               (JSVal.exception,
                 { registerFunction name2 g (registerFunction name1 f st) with
                   pendingExc := some (JSVal.errObj "InternalError" m) }, [])))
    ∧ (∀ st1, setConsoleLog I cb (registerFunction name1 f st) = Except.ok st1 →
        invokeNative toCStr TrampKind.strTramp argv st1 = (JSVal.ubVal, st1, [])) := by
  refine ⟨rfl, rfl, ?_, ?_, ?_, ?_⟩
  · intro st1 h
    simp only [setConsoleLog] at h
    cases hev : (eval I consoleBootstrapSrc "<eval>" st).1 with
    | error m => simp [hev] at h
    | ok u =>
      simp only [hev] at h
      have h2 := Except.ok.inj h
      rw [← h2]
  · intro k stA stB hop hto
    cases k with
    | strTramp =>
      cases hB : stB.opaqueSlot with
      | none => simp [invokeNative, strTrampoline, hop.trans hB, hB]
      | some d =>
        cases d with
        | strFn f0 =>
          have hargs := convertArgs_congr toCStr stA stB hto argv
          cases hf : f0 (convertArgs toCStr stB argv) with
          | ok r =>
            simp [invokeNative, strTrampoline, hop.trans hB, hB, hargs, hf]
          | error m =>
            simp [invokeNative, strTrampoline, hop.trans hB, hB, hargs, hf, throwInternalError]
        | simpleWrapper f0 => simp [invokeNative, strTrampoline, hop.trans hB, hB]
        | consoleWrapper c0 => simp [invokeNative, strTrampoline, hop.trans hB, hB]
    | simpleTramp =>
      cases hB : stB.opaqueSlot with
      | none => simp [invokeNative, simpleTrampoline, hop.trans hB, hB]
      | some d =>
        cases d with
        | strFn f0 => simp [invokeNative, simpleTrampoline, hop.trans hB, hB]
        | simpleWrapper f0 =>
          cases hf : f0 () with
          | ok r => simp [invokeNative, simpleTrampoline, hop.trans hB, hB, hf]
          | error m =>
            simp [invokeNative, simpleTrampoline, hop.trans hB, hB, hf, throwInternalError]
        | consoleWrapper c0 => simp [invokeNative, simpleTrampoline, hop.trans hB, hB]
    | logTramp =>
      cases hB : stB.opaqueSlot with
      | none => simp [invokeNative, logTrampoline, hop.trans hB, hB]
      | some d =>
        cases d with
        | strFn f0 => simp [invokeNative, logTrampoline, hop.trans hB, hB]
        | simpleWrapper f0 => simp [invokeNative, logTrampoline, hop.trans hB, hB]
        | consoleWrapper c0 =>
          cases argv with
          | nil => simp [invokeNative, logTrampoline, hop.trans hB, hB]
          | cons a rest =>
            cases ha : toCStr stB a with
            | none =>
              simp [invokeNative, logTrampoline, hop.trans hB, hB, (hto a).trans ha, ha]
            | some s0 =>
              simp [invokeNative, logTrampoline, hop.trans hB, hB, (hto a).trans ha, ha]
  · intro hne
    constructor
    · simp [registerFunction, lookup_setProp_ne _ _ _ _ hne, lookup_setProp]
    · have hop : (registerFunction name2 g (registerFunction name1 f st)).opaqueSlot
          = some (OpaqueData.strFn g) := rfl
      cases hg : g (convertArgs toCStr
          (registerFunction name2 g (registerFunction name1 f st)) argv) with
      | ok r => simp [invokeNative, strTrampoline, hop, hg]
      | error m => simp [invokeNative, strTrampoline, hop, hg, throwInternalError]
  · intro st1 h
    simp only [setConsoleLog] at h
    cases hev : (eval I consoleBootstrapSrc "<eval>" (registerFunction name1 f st)).1 with
    | error m => simp [hev] at h
    | ok u =>
      simp only [hev] at h
      have h2 := Except.ok.inj h
      rw [← h2]
      simp [invokeNative, strTrampoline]

/-- Witness for C10: `registerSimpleFunction` leaves a fresh context's
slot empty; after registering under "a" then "b", a call to "a" yields
the closure registered under "b"; after registering under "a" and then
installing a console callback, a call to "a" hits the mismatched-type
reinterpretation. -/
theorem trampolines_share_one_opaque_slot_witness :
    (registerSimpleFunction "a" (fun _ => Except.ok "v") initCtx).opaqueSlot = none
    ∧ invokeNative (specToCString (fun _ => "0")) TrampKind.strTramp []
        (registerFunction "b" (fun _ => Except.ok "gee")
          (registerFunction "a" (fun _ => Except.ok "eff") initCtx))
      = (JSVal.strV "gee",
          registerFunction "b" (fun _ => Except.ok "gee")
            (registerFunction "a" (fun _ => Except.ok "eff") initCtx), [])
    ∧ invokeNative (specToCString (fun _ => "0")) TrampKind.strTramp []
        { registerFunction "a" (fun _ => Except.ok "eff") initCtx with
          consoleLogSlot := JSVal.nativeFn TrampKind.logTramp
          opaqueSlot := some (OpaqueData.consoleWrapper (fun m => [m])) }
      = (JSVal.ubVal,
          { registerFunction "a" (fun _ => Except.ok "eff") initCtx with
            consoleLogSlot := JSVal.nativeFn TrampKind.logTramp
            opaqueSlot := some (OpaqueData.consoleWrapper (fun m => [m])) }, []) := by
  have h := trampolines_share_one_opaque_slot "a" "b"
    (fun _ => Except.ok "eff") (fun _ => Except.ok "gee") (fun _ => Except.ok "v")
    undefInterp (fun m => [m]) initCtx (specToCString (fun _ => "0")) []
  refine ⟨?_, ?_, ?_⟩
  · exact h.2.1.trans (by rfl)
  · exact (h.2.2.2.2.1 (by decide)).2.trans (by rfl)
  · exact h.2.2.2.2.2
      { registerFunction "a" (fun _ => Except.ok "eff") initCtx with
        consoleLogSlot := JSVal.nativeFn TrampKind.logTramp
        opaqueSlot := some (OpaqueData.consoleWrapper (fun m => [m])) }
      (by rfl)

end QuickJS
